import Mathlib

/-!
Verification development for the GCN named-entity-recognition inference
wrapper declared in src/official/gnn/gcn/infer/mxbase/src/GcnNerBase.h.
The repository ships only the header: method bodies live outside src/, so
each operation body is modelled from the spec (marked below), while the
declared data (struct fields, default member initializers, enum values,
global counters) is embedded directly from the header.

Floating-point score buffers are embedded with integer scores: the spec
only constrains the ordering of scores (argmax, first maximal index), and
inference-cost samples are abstracted to natural numbers since the spec
only constrains their accumulation.
-/

namespace GcnNer

/-- APP_ERR_OK, the SDK success status (the header returns APP_ERROR from
every public operation). -/
def APP_ERR_OK : Nat := 0

/-- Stand-in non-success status for a failed file read. -/
def APP_ERR_COMM_READ_FAIL : Nat := 1

/-- Stand-in non-success status for a failed write of the decoded result. -/
def APP_ERR_COMM_WRITE_FAIL : Nat := 2

/-- Stand-in non-success status for a failed SDK inference call. -/
def APP_ERR_COMM_INFER_FAIL : Nat := 3

/-- InitParam from the header (lines 39 to 44): device id, label file path,
model file path and class count. -/
structure InitParam where
  deviceId : Nat
  labelPath : String
  modelPath : String
  classNum : Nat

/-- DataIndex enum value INPUT_ADJACENCY from the header (line 47). -/
def INPUT_ADJACENCY : Nat := 0

/-- DataIndex enum value INPUT_FEATURE from the header (line 48). -/
def INPUT_FEATURE : Nat := 1

/-- Opaque SDK model descriptor; the header value-initializes it
(modelDesc_ = curly braces, line 84), embedded as a wrapper whose zero
value is the value-initialized descriptor. -/
structure ModelDesc where
  raw : List Nat

/-- The value-initialized (zeroed) model descriptor. -/
def ModelDesc.zero : ModelDesc := ⟨[]⟩

/-- The instance state of class GcnNerBase (header lines 81 to 87): the two
SDK handles are embedded as booleans (null or bound), the rest as declared. -/
structure GcnNerBase where
  dvppWrapper_ : Bool
  model_ : Bool
  modelDesc_ : ModelDesc
  labelMap_ : List String
  deviceId_ : Nat
  classNum_ : Nat

/-- A freshly constructed GcnNerBase: shared_ptr members default to null,
and the header gives default member initializers modelDesc_ = curly braces,
labelMap_ = curly braces, deviceId_ = 0, classNum_ = 0 (lines 82 to 87). -/
def GcnNerBase.construct : GcnNerBase :=
  { dvppWrapper_ := false
    model_ := false
    modelDesc_ := ModelDesc.zero
    labelMap_ := []
    deviceId_ := 0
    classNum_ := 0 }

/-- The process-wide accumulators declared extern in the header
(lines 31 to 34): g_inferCost (inference cost samples) and the
g_TP, g_FP, g_FN counters. -/
structure Globals where
  g_inferCost : List Nat
  g_TP : Nat
  g_FP : Nat
  g_FN : Nat

/-- The whole mutable state a run touches: one GcnNerBase instance plus the
process-wide accumulators. -/
structure SysState where
  inst : GcnNerBase
  globals : Globals

/-- A tensor buffer, embedded as its flat element list with integer
entries. -/
def Tensor : Type := List Int

/-- Modelled from the spec: the body of the argmax scan inside
GcnNerBase::PostProcess is not under src/ (the header only declares it).
The spec fixes the scan result: the index of the highest score, ties
resolved to the first maximal index encountered. This recursion returns 0
when the head is at least the maximum of the tail, otherwise one plus the
first maximal index of the tail. -/
def argmaxIdx : List Int → Nat
  | [] => 0
  | _ :: [] => 0
  | s :: r :: rest =>
      let k := argmaxIdx (r :: rest)
      if s < (r :: rest).getD k 0 then k + 1 else 0

/-- Modelled from the spec: the body of GcnNerBase::PostProcess is not
under src/. Per the spec it fills the argmax vector by selecting, for each
node, the argmax of the class scores of that node in the model output
tensor; the output tensor is embedded as one score row per node. -/
def PostProcess (outputs : List (List Int)) : List Nat :=
  outputs.map argmaxIdx

/-- Modelled from the spec: the body of GcnNerBase::GetClunerLabel is not
under src/. Per the header it maps an argmax vector to a multimap from
Cluner label strings to positions; it is embedded as the list of pairs of
the decoded label string of each node with its position. -/
def GetClunerLabel (labelMap : List String) (argmax : List Nat) :
    List (String × Nat) :=
  argmax.enum.map (fun p => (labelMap.getD p.2 "", p.1))

/-- Modelled from the spec: the body of GcnNerBase::CountPredictResult is
not under src/. Per the spec it increases g_TP by the number of predicted
span-level Cluner labels that also appear in the gold label file, g_FP by
the number of predicted spans absent from the gold file, and g_FN by the
number of gold spans absent from the predictions. -/
def CountPredictResult (g : Globals) (gold pred : List (String × Nat)) :
    Globals :=
  { g with
    g_TP := g.g_TP + (pred.filter (fun p => gold.contains p)).length
    g_FP := g.g_FP + (pred.filter (fun p => !gold.contains p)).length
    g_FN := g.g_FN + (gold.filter (fun q => !pred.contains q)).length }

/-- Modelled from the spec: the body of GcnNerBase::ReadInputTensor is not
under src/. It reads one tensor from file and appends it to the inputs
vector at the next input index (INPUT_ADJACENCY first, INPUT_FEATURE
second). -/
def ReadInputTensor (data : Tensor) (inputs : List Tensor) : List Tensor :=
  inputs ++ [data]

/-- Result record of GcnNerBase::Init: the APP_ERROR status and the updated
state. -/
structure InitResult where
  status : Nat
  state : SysState

/-- Modelled from the spec: the body of GcnNerBase::Init is not under src/.
It binds the device and model handles, stores deviceId and classNum from
the InitParam, and loads the label file into labelMap_ in file order; a
failed label load reports the read status and leaves the state unchanged.
The file system is abstracted: labelLines carries the lines of the label
file, none standing for a failed read, and desc the descriptor the SDK
reports for the loaded model. -/
def Init (s : SysState) (p : InitParam) (desc : ModelDesc)
    (labelLines : Option (List String)) : InitResult :=
  match labelLines with
  | none => { status := APP_ERR_COMM_READ_FAIL, state := s }
  | some lines =>
      { status := APP_ERR_OK
        state :=
          { s with inst :=
            { dvppWrapper_ := true
              model_ := true
              modelDesc_ := desc
              labelMap_ := lines
              deviceId_ := p.deviceId
              classNum_ := p.classNum } } }

/-- Result record of GcnNerBase::DeInit. -/
structure DeInitResult where
  status : Nat
  state : SysState

/-- Modelled from the spec: the body of GcnNerBase::DeInit is not under
src/. Teardown of the device-bound model handle: it releases the two SDK
handles of the instance and touches nothing else. -/
def DeInit (s : SysState) : DeInitResult :=
  { status := APP_ERR_OK
    state := { s with inst :=
      { s.inst with dvppWrapper_ := false, model_ := false } } }

/-- Result record of GcnNerBase::Inference: status, updated state and the
output tensors, one score row per node. -/
structure InferResult where
  status : Nat
  state : SysState
  outputs : List (List Int)

/-- Modelled from the spec: the body of GcnNerBase::Inference is not under
src/. It runs the forward pass through the SDK on the given inputs and
appends the measured cost of a successful pass to g_inferCost; a failed SDK
call reports a non-success status and leaves the state unchanged. The SDK
is abstracted: sdkOut carries its answer for these inputs, none standing
for failure, and cost the measured duration. -/
def Inference (s : SysState) (inputs : List Tensor)
    (sdkOut : Option (List (List Int))) (cost : Nat) : InferResult :=
  match sdkOut with
  | none => { status := APP_ERR_COMM_INFER_FAIL, state := s, outputs := [] }
  | some outs =>
      { status := APP_ERR_OK
        state := { s with globals :=
          { s.globals with g_inferCost := s.globals.g_inferCost ++ [cost] } }
        outputs := outs }

/-- The observable steps a Process call performs, in order. -/
inductive Event where
  | readAdj : Event
  | readFeat : Event
  | infer : Event
  | postproc : Event
  | write : Event
  | count : Event
deriving DecidableEq

/-- The abstracted environment of one Process call: the two input files
(none standing for a failed read), the SDK answer, the measured inference
cost, the gold label file spans, and whether writing the result file
succeeds. -/
structure ProcessEnv where
  adjData : Option Tensor
  featData : Option Tensor
  sdkOut : Option (List (List Int))
  cost : Nat
  goldSpans : List (String × Nat)
  writeOk : Bool

/-- Result record of GcnNerBase::Process: status, updated state and the
trace of steps performed. -/
structure ProcResult where
  status : Nat
  state : SysState
  trace : List Event

/-- The tail of Process after both input tensors are read: inference,
argmax decode, result writing and, when evalFlag is set, counting against
the gold label file. Split out so the inputs vector Process feeds to
Inference is visible. -/
def ProcessRest (s : SysState) (inputs : List Tensor) (env : ProcessEnv)
    (evalFlag : Bool) : ProcResult :=
  let r := Inference s inputs env.sdkOut env.cost
  if r.status ≠ APP_ERR_OK then
    { status := r.status, state := r.state
      trace := [Event.readAdj, Event.readFeat] }
  else
    let argmax := PostProcess r.outputs
    if !env.writeOk then
      { status := APP_ERR_COMM_WRITE_FAIL, state := r.state
        trace := [Event.readAdj, Event.readFeat, Event.infer,
                  Event.postproc] }
    else if evalFlag then
      { status := APP_ERR_OK
        state := { r.state with
                   globals := CountPredictResult r.state.globals env.goldSpans
                                (GetClunerLabel r.state.inst.labelMap_ argmax) }
        trace := [Event.readAdj, Event.readFeat, Event.infer,
                  Event.postproc, Event.write, Event.count] }
    else
      { status := APP_ERR_OK, state := r.state
        trace := [Event.readAdj, Event.readFeat, Event.infer,
                  Event.postproc, Event.write] }

/-- Modelled from the spec: the body of GcnNerBase::Process is not under
src/. Per the spec it reads the adjacency tensor (input index
INPUT_ADJACENCY) and the feature tensor (input index INPUT_FEATURE) from
file, runs Inference through the SDK, decodes the output with PostProcess,
writes the decoded result, and only when evalFlag is set counts matches
against the gold label file via CountPredictResult; a failed step makes
Process return that status without performing the later steps. -/
def Process (s : SysState) (env : ProcessEnv) (evalFlag : Bool) :
    ProcResult :=
  match env.adjData with
  | none => { status := APP_ERR_COMM_READ_FAIL, state := s, trace := [] }
  | some adj =>
    match env.featData with
    | none =>
        { status := APP_ERR_COMM_READ_FAIL, state := s
          trace := [Event.readAdj] }
    | some feat =>
        ProcessRest s (ReadInputTensor feat (ReadInputTensor adj []))
          env evalFlag

/-- One system operation with its abstracted inputs, covering every
declared mutating entry point of the header. -/
inductive Op where
  | opInit (p : InitParam) (desc : ModelDesc)
      (labelLines : Option (List String)) : Op
  | opDeInit : Op
  | opInference (inputs : List Tensor) (sdkOut : Option (List (List Int)))
      (cost : Nat) : Op
  | opProcess (env : ProcessEnv) (evalFlag : Bool) : Op
  | opPostProcess (outputs : List (List Int)) : Op
  | opCount (gold : List (String × Nat)) (argmax : List Nat) : Op

/-- Whether an operation is an Init call. -/
def Op.isInit : Op → Bool
  | .opInit _ _ _ => true
  | _ => false

/-- The state after one operation. PostProcess is pure (it only fills the
argmax vector), so it leaves the state unchanged. -/
def applyOp (s : SysState) : Op → SysState
  | .opInit p desc lines => (Init s p desc lines).state
  | .opDeInit => (DeInit s).state
  | .opInference inputs sdkOut cost => (Inference s inputs sdkOut cost).state
  | .opProcess env evalFlag => (Process s env evalFlag).state
  | .opPostProcess _ => s
  | .opCount gold argmax =>
      { s with
        globals := CountPredictResult s.globals gold
                     (GetClunerLabel s.inst.labelMap_ argmax) }

/-- The state after a sequence of operations. -/
def runOps (s : SysState) (ops : List Op) : SysState :=
  List.foldl applyOp s ops

theorem argmaxIdx_lt_length : ∀ (l : List Int), l ≠ [] → argmaxIdx l < l.length
  | [], h => absurd rfl h
  | _ :: [], _ => Nat.zero_lt_one
  | s :: r :: rest, _ => by
      have ih := argmaxIdx_lt_length (r :: rest) (by simp)
      simp only [argmaxIdx]
      split
      · simpa [List.length_cons] using Nat.succ_lt_succ ih
      · simp [List.length_cons]

theorem argmaxIdx_is_max : ∀ (l : List Int), ∀ j, j < l.length →
    l.getD j 0 ≤ l.getD (argmaxIdx l) 0
  | [], j, hj => by simp at hj
  | s :: [], j, hj => by
      have : j = 0 := by simpa using Nat.lt_one_iff.mp (by simpa using hj)
      subst this
      simp [argmaxIdx]
  | s :: r :: rest, j, hj => by
      have ih := fun j hj => argmaxIdx_is_max (r :: rest) j hj
      simp only [argmaxIdx]
      split
      · rename_i hlt
        cases j with
        | zero =>
            simpa [List.getD_cons_zero, List.getD_cons_succ] using le_of_lt hlt
        | succ j =>
            have hj' : j < (r :: rest).length := by
              simpa [List.length_cons] using Nat.lt_of_succ_lt_succ hj
            simpa [List.getD_cons_succ] using ih j hj'
      · rename_i hge
        push_neg at hge
        cases j with
        | zero => simp
        | succ j =>
            have hj' : j < (r :: rest).length := by
              simpa [List.length_cons] using Nat.lt_of_succ_lt_succ hj
            have hk := argmaxIdx_lt_length (r :: rest) (by simp)
            calc (s :: r :: rest).getD (j + 1) 0
                = (r :: rest).getD j 0 := by simp [List.getD_cons_succ]
              _ ≤ (r :: rest).getD (argmaxIdx (r :: rest)) 0 := ih j hj'
              _ ≤ s := hge
              _ = (s :: r :: rest).getD 0 0 := by simp

theorem argmaxIdx_first_max : ∀ (l : List Int), ∀ j, j < argmaxIdx l →
    l.getD j 0 < l.getD (argmaxIdx l) 0
  | [], j, hj => by simp [argmaxIdx] at hj
  | s :: [], j, hj => by simp [argmaxIdx] at hj
  | s :: r :: rest, j, hj => by
      have ih := fun j hj => argmaxIdx_first_max (r :: rest) j hj
      simp only [argmaxIdx] at hj ⊢
      split
      · rename_i hlt
        cases j with
        | zero => simpa [List.getD_cons_zero, List.getD_cons_succ] using hlt
        | succ j =>
            split at hj
            · have hj' : j < argmaxIdx (r :: rest) := Nat.lt_of_succ_lt_succ hj
              simpa [List.getD_cons_succ] using ih j hj'
            · exact absurd hj (by omega)
      · rename_i hge
        split at hj
        · exact absurd ‹s < (r :: rest).getD (argmaxIdx (r :: rest)) 0› hge
        · exact absurd hj (by omega)

theorem Inference_inst (s : SysState) (inputs : List Tensor)
    (sdkOut : Option (List (List Int))) (cost : Nat) :
    (Inference s inputs sdkOut cost).state.inst = s.inst := by
  cases sdkOut <;> rfl

theorem ProcessRest_inst (s : SysState) (inputs : List Tensor)
    (env : ProcessEnv) (f : Bool) :
    (ProcessRest s inputs env f).state.inst = s.inst := by
  unfold ProcessRest
  cases h : env.sdkOut <;>
    simp only [h, Inference, APP_ERR_OK, APP_ERR_COMM_INFER_FAIL] <;>
    split <;> (try split) <;> (try split) <;> simp

theorem Process_inst (s : SysState) (env : ProcessEnv) (f : Bool) :
    (Process s env f).state.inst = s.inst := by
  unfold Process
  cases ha : env.adjData <;> cases hf : env.featData <;>
    simp [ProcessRest_inst]

/-- Pointwise order on the accumulator state: every counter at most the
later value and the cost vector no shorter. -/
def GlobalsLe (a b : Globals) : Prop :=
  a.g_TP ≤ b.g_TP ∧ a.g_FP ≤ b.g_FP ∧ a.g_FN ≤ b.g_FN ∧
  a.g_inferCost.length ≤ b.g_inferCost.length

theorem GlobalsLe.rfl (a : Globals) : GlobalsLe a a :=
  ⟨le_refl _, le_refl _, le_refl _, le_refl _⟩

theorem GlobalsLe.trans {a b c : Globals} (h1 : GlobalsLe a b)
    (h2 : GlobalsLe b c) : GlobalsLe a c :=
  ⟨h1.1.trans h2.1, h1.2.1.trans h2.2.1, h1.2.2.1.trans h2.2.2.1,
   h1.2.2.2.trans h2.2.2.2⟩

theorem GlobalsLe.of_eq {a b : Globals} (h : a = b) : GlobalsLe a b :=
  h ▸ GlobalsLe.rfl a

theorem countPredictResult_le (g : Globals) (gold pred : List (String × Nat)) :
    GlobalsLe g (CountPredictResult g gold pred) :=
  ⟨Nat.le_add_right _ _, Nat.le_add_right _ _, Nat.le_add_right _ _,
   le_refl _⟩

theorem inference_globals_le (s : SysState) (inputs : List Tensor)
    (sdkOut : Option (List (List Int))) (cost : Nat) :
    GlobalsLe s.globals (Inference s inputs sdkOut cost).state.globals := by
  cases sdkOut with
  | none => exact GlobalsLe.rfl _
  | some outs =>
      refine ⟨le_refl _, le_refl _, le_refl _, ?_⟩
      simp [Inference]

theorem processRest_globals_le (s : SysState) (inputs : List Tensor)
    (env : ProcessEnv) (f : Bool) :
    GlobalsLe s.globals (ProcessRest s inputs env f).state.globals := by
  unfold ProcessRest
  cases h : env.sdkOut with
  | none =>
      simp [h, Inference, APP_ERR_OK, APP_ERR_COMM_INFER_FAIL, GlobalsLe]
  | some outs =>
      simp only [h, Inference, APP_ERR_OK, ne_eq, not_true_eq_false,
        ite_false, if_neg, Bool.not_eq_true]
      split
      · exact ⟨le_refl _, le_refl _, le_refl _, by simp⟩
      · split
        · exact GlobalsLe.trans
            (⟨le_refl _, le_refl _, le_refl _, by simp⟩ :
              GlobalsLe s.globals { s.globals with
                g_inferCost := s.globals.g_inferCost ++ [env.cost] })
            (countPredictResult_le _ _ _)
        · exact ⟨le_refl _, le_refl _, le_refl _, by simp⟩

theorem process_globals_le (s : SysState) (env : ProcessEnv) (f : Bool) :
    GlobalsLe s.globals (Process s env f).state.globals := by
  unfold Process
  cases ha : env.adjData <;> cases hf : env.featData <;>
    first
      | exact GlobalsLe.rfl _
      | exact processRest_globals_le _ _ _ _

theorem applyOp_globals_le (s : SysState) (op : Op) :
    GlobalsLe s.globals (applyOp s op).globals := by
  cases op with
  | opInit p desc lines =>
      cases lines <;> exact GlobalsLe.rfl _
  | opDeInit => exact GlobalsLe.rfl _
  | opInference inputs sdkOut cost => exact inference_globals_le _ _ _ _
  | opProcess env f => exact process_globals_le _ _ _
  | opPostProcess outputs => exact GlobalsLe.rfl _
  | opCount gold argmax => exact countPredictResult_le _ _ _

theorem runOps_globals_le (s : SysState) (ops : List Op) :
    GlobalsLe s.globals (runOps s ops).globals := by
  induction ops generalizing s with
  | nil => exact GlobalsLe.rfl _
  | cons op ops ih =>
      exact GlobalsLe.trans (applyOp_globals_le s op) (ih (applyOp s op))

theorem applyOp_labelMap (s : SysState) (op : Op) (h : op.isInit = false) :
    (applyOp s op).inst.labelMap_ = s.inst.labelMap_ := by
  cases op with
  | opInit p desc lines => simp [Op.isInit] at h
  | opDeInit => rfl
  | opInference inputs sdkOut cost => rw [applyOp, Inference_inst]
  | opProcess env f => rw [applyOp, Process_inst]
  | opPostProcess outputs => rfl
  | opCount gold argmax => rfl

/-- A concrete system state used to instantiate the theorems below. -/
def sampleState : SysState :=
  { inst := GcnNerBase.construct
    globals := { g_inferCost := [], g_TP := 0, g_FP := 0, g_FN := 0 } }

/-- A concrete InitParam used to instantiate the theorems below. -/
def sampleParam : InitParam :=
  { deviceId := 0, labelPath := "label.txt", modelPath := "gcn.om"
    classNum := 3 }

/-- A concrete Process environment in which every step succeeds. -/
def sampleEnv : ProcessEnv :=
  { adjData := some [1, 0]
    featData := some [2, 5]
    sdkOut := some [[1, 3, 3], [5, 2, 7]]
    cost := 7
    goldSpans := [("O", 0)]
    writeOk := true }

/-- C1: PostProcess fills the argmax vector by selecting, for each node,
the index of the highest-scoring class among the classNum class scores of
that node in the model output tensor, ties resolved to the first maximal
index encountered in the scan. -/
theorem C1_postProcess_argmax (outputs : List (List Int)) (cn i : Nat)
    (hrows : ∀ row ∈ outputs, row.length = cn) (hcn : 0 < cn)
    (hi : i < outputs.length) :
    (PostProcess outputs).getD i 0 = argmaxIdx (outputs.getD i []) ∧
    argmaxIdx (outputs.getD i []) < cn ∧
    (∀ j, j < cn → (outputs.getD i []).getD j 0 ≤
      (outputs.getD i []).getD (argmaxIdx (outputs.getD i [])) 0) ∧
    (∀ j, j < argmaxIdx (outputs.getD i []) →
      (outputs.getD i []).getD j 0 <
        (outputs.getD i []).getD (argmaxIdx (outputs.getD i [])) 0) := by
  have hrow : outputs.getD i [] = outputs[i] :=
    List.getD_eq_getElem outputs [] hi
  have hmem : outputs[i] ∈ outputs := List.getElem_mem hi
  have hlen : outputs[i].length = cn := hrows _ hmem
  have hne : outputs[i] ≠ [] := by
    intro hnil
    rw [hnil] at hlen
    simp at hlen
    omega
  have hbound := argmaxIdx_lt_length outputs[i] hne
  refine ⟨?_, ?_, ?_, ?_⟩
  · rw [hrow]
    unfold PostProcess
    rw [List.getD_eq_getElem (outputs.map argmaxIdx) 0 (by simpa using hi),
      List.getElem_map]
  · rw [hrow]
    omega
  · intro j hj
    rw [hrow]
    exact argmaxIdx_is_max outputs[i] j (by omega)
  · intro j hj
    rw [hrow] at hj ⊢
    exact argmaxIdx_first_max outputs[i] j hj

/-- C1 witness at a concrete output tensor set. -/
theorem C1_postProcess_argmax_witness :
    (PostProcess [[1, 3, 3], [5, 2, 7]]).getD 0 0
      = argmaxIdx ([[(1 : Int), 3, 3], [5, 2, 7]].getD 0 []) ∧
    argmaxIdx ([[(1 : Int), 3, 3], [5, 2, 7]].getD 0 []) < 3 ∧
    (∀ j, j < 3 → ([[(1 : Int), 3, 3], [5, 2, 7]].getD 0 []).getD j 0 ≤
      ([[(1 : Int), 3, 3], [5, 2, 7]].getD 0 []).getD
        (argmaxIdx ([[(1 : Int), 3, 3], [5, 2, 7]].getD 0 [])) 0) ∧
    (∀ j, j < argmaxIdx ([[(1 : Int), 3, 3], [5, 2, 7]].getD 0 []) →
      ([[(1 : Int), 3, 3], [5, 2, 7]].getD 0 []).getD j 0 <
        ([[(1 : Int), 3, 3], [5, 2, 7]].getD 0 []).getD
          (argmaxIdx ([[(1 : Int), 3, 3], [5, 2, 7]].getD 0 [])) 0) :=
  C1_postProcess_argmax [[1, 3, 3], [5, 2, 7]] 3 0 (by decide) (by decide)
    (by decide)

/-- C2: CountPredictResult increases g_TP by the number of predicted
span-level Cluner labels that also appear in the gold label file, g_FP by
the number of predicted spans absent from the gold file, and g_FN by the
number of gold spans absent from the predictions; it never decreases any
of the three counters. -/
theorem C2_countPredictResult (g : Globals) (gold : List (String × Nat))
    (labelMap : List String) (argmax : List Nat) :
    (CountPredictResult g gold (GetClunerLabel labelMap argmax)).g_TP
      = g.g_TP + (GetClunerLabel labelMap argmax).countP
          (fun p => decide (p ∈ gold)) ∧
    (CountPredictResult g gold (GetClunerLabel labelMap argmax)).g_FP
      = g.g_FP + (GetClunerLabel labelMap argmax).countP
          (fun p => decide (p ∉ gold)) ∧
    (CountPredictResult g gold (GetClunerLabel labelMap argmax)).g_FN
      = g.g_FN + gold.countP
          (fun q => decide (q ∉ GetClunerLabel labelMap argmax)) ∧
    g.g_TP ≤ (CountPredictResult g gold (GetClunerLabel labelMap argmax)).g_TP ∧
    g.g_FP ≤ (CountPredictResult g gold (GetClunerLabel labelMap argmax)).g_FP ∧
    g.g_FN ≤ (CountPredictResult g gold (GetClunerLabel labelMap argmax)).g_FN := by
  refine ⟨?_, ?_, ?_, Nat.le_add_right _ _, Nat.le_add_right _ _,
    Nat.le_add_right _ _⟩ <;>
    simp [CountPredictResult, List.countP_eq_length_filter, decide_not]

/-- C3: after a successful Init, labelMap_ holds the label strings loaded
from the label file in file order, indexed by integer class id, and no
operation other than Init (Inference, Process, PostProcess,
CountPredictResult, DeInit) modifies labelMap_. -/
theorem C3_labelMap_stable (s : SysState) (p : InitParam) (d : ModelDesc)
    (lines : List String) (op : Op) (h : op.isInit = false) :
    (Init s p d (some lines)).status = APP_ERR_OK ∧
    (Init s p d (some lines)).state.inst.labelMap_ = lines ∧
    (∀ i, i < lines.length →
      (Init s p d (some lines)).state.inst.labelMap_.getD i ""
        = lines.getD i "") ∧
    (applyOp s op).inst.labelMap_ = s.inst.labelMap_ :=
  ⟨rfl, rfl, fun _ _ => rfl, applyOp_labelMap s op h⟩

/-- C3 witness at a concrete state, label file and non-Init operation. -/
theorem C3_labelMap_stable_witness :
    (Init sampleState sampleParam ModelDesc.zero
      (some ["O", "B-name", "I-name"])).status = APP_ERR_OK ∧
    (Init sampleState sampleParam ModelDesc.zero
      (some ["O", "B-name", "I-name"])).state.inst.labelMap_
        = ["O", "B-name", "I-name"] ∧
    (∀ i, i < (["O", "B-name", "I-name"] : List String).length →
      (Init sampleState sampleParam ModelDesc.zero
        (some ["O", "B-name", "I-name"])).state.inst.labelMap_.getD i ""
          = (["O", "B-name", "I-name"] : List String).getD i "") ∧
    (applyOp sampleState Op.opDeInit).inst.labelMap_
      = sampleState.inst.labelMap_ :=
  C3_labelMap_stable sampleState sampleParam ModelDesc.zero
    ["O", "B-name", "I-name"] Op.opDeInit rfl

/-- C4: over any sequence of operations (Init, Process, Inference,
CountPredictResult, PostProcess, DeInit), the counters g_TP, g_FP and g_FN
never decrease and the length of g_inferCost never shrinks; no operation
resets them. -/
theorem C4_counters_accumulate (s : SysState) (ops : List Op) :
    s.globals.g_TP ≤ (runOps s ops).globals.g_TP ∧
    s.globals.g_FP ≤ (runOps s ops).globals.g_FP ∧
    s.globals.g_FN ≤ (runOps s ops).globals.g_FN ∧
    s.globals.g_inferCost.length
      ≤ (runOps s ops).globals.g_inferCost.length :=
  runOps_globals_le s ops

/-- C5: Process feeds exactly two input tensors to the accelerator, the
adjacency tensor at input index INPUT_ADJACENCY = 0 and the feature tensor
at input index INPUT_FEATURE = 1. -/
theorem C5_two_inputs (s : SysState) (env : ProcessEnv) (f : Bool)
    (adj feat : Tensor) (ha : env.adjData = some adj)
    (hf : env.featData = some feat) :
    Process s env f
      = ProcessRest s (ReadInputTensor feat (ReadInputTensor adj []))
          env f ∧
    (ReadInputTensor feat (ReadInputTensor adj [])).length = 2 ∧
    (ReadInputTensor feat (ReadInputTensor adj [])).getD
      INPUT_ADJACENCY [] = adj ∧
    (ReadInputTensor feat (ReadInputTensor adj [])).getD
      INPUT_FEATURE [] = feat := by
  refine ⟨?_, rfl, rfl, rfl⟩
  unfold Process
  rw [ha, hf]

/-- C5 witness at a concrete environment. -/
theorem C5_two_inputs_witness :
    Process sampleState sampleEnv true
      = ProcessRest sampleState
          (ReadInputTensor [2, 5] (ReadInputTensor [1, 0] []))
          sampleEnv true ∧
    (ReadInputTensor [2, 5] (ReadInputTensor [1, 0] [])).length = 2 ∧
    (ReadInputTensor [2, 5] (ReadInputTensor [1, 0] [])).getD
      INPUT_ADJACENCY [] = [1, 0] ∧
    (ReadInputTensor [2, 5] (ReadInputTensor [1, 0] [])).getD
      INPUT_FEATURE [] = [2, 5] :=
  C5_two_inputs sampleState sampleEnv true [1, 0] [2, 5] rfl rfl

/-- C6: every operation reports failure solely by returning a non-success
APP_ERROR status: a failed label load makes Init return the read status
and leaves the state unchanged; Process returns APP_ERR_OK exactly when
every step succeeded; and a failed Inference makes Process return the very
status Inference reported, with no retry or recovery. -/
theorem C6_status_reporting (s : SysState) (p : InitParam) (d : ModelDesc)
    (env : ProcessEnv) (f : Bool) :
    ((Init s p d none).status = APP_ERR_COMM_READ_FAIL ∧
     (Init s p d none).status ≠ APP_ERR_OK ∧
     (Init s p d none).state = s) ∧
    ((Process s env f).status = APP_ERR_OK ↔
      env.adjData ≠ none ∧ env.featData ≠ none ∧ env.sdkOut ≠ none ∧
      env.writeOk = true) ∧
    (∀ adj feat, env.adjData = some adj → env.featData = some feat →
      env.sdkOut = none →
      (Process s env f).status
        = (Inference s (ReadInputTensor feat (ReadInputTensor adj []))
            env.sdkOut env.cost).status ∧
      (Process s env f).status ≠ APP_ERR_OK) := by
  refine ⟨⟨rfl, by simp [Init, APP_ERR_COMM_READ_FAIL, APP_ERR_OK], rfl⟩,
    ?_, ?_⟩
  · obtain ⟨a, b, c, cost, gold, w⟩ := env
    cases a <;> cases b <;> cases c <;> cases w <;> cases f <;>
      simp [Process, ProcessRest, Inference, ReadInputTensor, APP_ERR_OK,
        APP_ERR_COMM_READ_FAIL, APP_ERR_COMM_WRITE_FAIL,
        APP_ERR_COMM_INFER_FAIL]
  · intro adj feat ha hf hc
    obtain ⟨a, b, c, cost, gold, w⟩ := env
    simp only at ha hf hc
    subst ha
    subst hf
    subst hc
    simp [Process, ProcessRest, Inference, ReadInputTensor, APP_ERR_OK,
      APP_ERR_COMM_INFER_FAIL]

/-- C6 witness: a concrete failed Init and a concrete all-steps-succeed
Process call. -/
theorem C6_status_reporting_witness :
    (Init sampleState sampleParam ModelDesc.zero none).status
      = APP_ERR_COMM_READ_FAIL ∧
    (Process sampleState sampleEnv true).status = APP_ERR_OK := by
  have h := C6_status_reporting sampleState sampleParam ModelDesc.zero
    sampleEnv true
  exact ⟨h.1.1, h.2.1.mpr ⟨by simp [sampleEnv], by simp [sampleEnv],
    by simp [sampleEnv], by simp [sampleEnv]⟩⟩

/-- C7: a successful Process performs its steps in order: read the
adjacency tensor, read the feature tensor, run Inference, decode with
PostProcess, write the decoded result, and only when the eval flag is set,
count matches against the gold label file via CountPredictResult. -/
theorem C7_process_order (s : SysState) (env : ProcessEnv) (f : Bool)
    (h : (Process s env f).status = APP_ERR_OK) :
    (Process s env f).trace
      = [Event.readAdj, Event.readFeat, Event.infer, Event.postproc,
         Event.write] ++ (if f then [Event.count] else []) := by
  obtain ⟨a, b, c, cost, gold, w⟩ := env
  cases a <;> cases b <;> cases c <;> cases w <;> cases f <;>
    simp_all [Process, ProcessRest, Inference, APP_ERR_OK,
      APP_ERR_COMM_READ_FAIL, APP_ERR_COMM_WRITE_FAIL,
      APP_ERR_COMM_INFER_FAIL]

/-- C7 witness at a concrete all-steps-succeed environment with the eval
flag set. -/
theorem C7_process_order_witness :
    (Process sampleState sampleEnv true).status = APP_ERR_OK ∧
    (Process sampleState sampleEnv true).trace
      = [Event.readAdj, Event.readFeat, Event.infer, Event.postproc,
         Event.write] ++ (if true then [Event.count] else []) :=
  ⟨rfl, C7_process_order sampleState sampleEnv true rfl⟩

/-- C8: DeInit releases only the two SDK handles of the instance: it
leaves the process-wide accumulators g_TP, g_FP, g_FN, g_inferCost and the
remaining instance fields unchanged, so scores gathered before teardown
survive a DeInit then Init cycle. -/
theorem C8_deinit_frame (s : SysState) (p : InitParam) (d : ModelDesc)
    (lines : List String) :
    (DeInit s).status = APP_ERR_OK ∧
    (DeInit s).state.globals = s.globals ∧
    (DeInit s).state.inst.labelMap_ = s.inst.labelMap_ ∧
    (DeInit s).state.inst.deviceId_ = s.inst.deviceId_ ∧
    (DeInit s).state.inst.classNum_ = s.inst.classNum_ ∧
    (DeInit s).state.inst.modelDesc_ = s.inst.modelDesc_ ∧
    (DeInit s).state.inst.dvppWrapper_ = false ∧
    (DeInit s).state.inst.model_ = false ∧
    (runOps s [Op.opDeInit, Op.opInit p d (some lines)]).globals
      = s.globals :=
  ⟨rfl, rfl, rfl, rfl, rfl, rfl, rfl, rfl, rfl⟩

/-- C9: a freshly constructed GcnNerBase has deviceId_ = 0, classNum_ = 0,
labelMap_ empty, null SDK handles and a zero-initialized modelDesc_; a
successful Init sets deviceId_ and classNum_ from the corresponding
InitParam fields. -/
theorem C9_fresh_defaults (s : SysState) (p : InitParam) (d : ModelDesc)
    (lines : List String) :
    GcnNerBase.construct.deviceId_ = 0 ∧
    GcnNerBase.construct.classNum_ = 0 ∧
    GcnNerBase.construct.labelMap_ = [] ∧
    GcnNerBase.construct.modelDesc_ = ModelDesc.zero ∧
    GcnNerBase.construct.dvppWrapper_ = false ∧
    GcnNerBase.construct.model_ = false ∧
    (Init s p d (some lines)).status = APP_ERR_OK ∧
    (Init s p d (some lines)).state.inst.deviceId_ = p.deviceId ∧
    (Init s p d (some lines)).state.inst.classNum_ = p.classNum :=
  ⟨rfl, rfl, rfl, rfl, rfl, rfl, rfl, rfl, rfl⟩

/-- C10: every class index PostProcess writes into the argmax vector is
strictly below the class count, so indexing labelMap_ (whose length is the
class count) with any produced argmax entry stays in bounds. -/
theorem C10_argmax_in_bounds (outputs : List (List Int)) (cn : Nat)
    (labelMap : List String) (a : Nat)
    (hrows : ∀ row ∈ outputs, row.length = cn) (hcn : 0 < cn)
    (hlm : labelMap.length = cn) (ha : a ∈ PostProcess outputs) :
    a < cn ∧ a < labelMap.length := by
  unfold PostProcess at ha
  obtain ⟨row, hrow, hrfl⟩ := List.mem_map.mp ha
  have hlen := hrows row hrow
  have hne : row ≠ [] := by
    intro hnil
    rw [hnil] at hlen
    simp at hlen
    omega
  have hbound := argmaxIdx_lt_length row hne
  subst hrfl
  omega

/-- C10 witness at a concrete output tensor set and label map. -/
theorem C10_argmax_in_bounds_witness :
    (2 : Nat) < 3 ∧ (2 : Nat) < (["O", "B-name", "I-name"] :
      List String).length :=
  C10_argmax_in_bounds [[1, 3, 3], [5, 2, 7]] 3 ["O", "B-name", "I-name"] 2
    (by decide) (by decide) (by decide) (by decide)

end GcnNer
